import Mathlib

/-!
Verification of the running-routes candidate generation, enrichment and
scoring pipeline (src/lib/overpass.ts, src/lib/route-scoring.ts and the
OSRM route generator).

Numeric semantics: the TypeScript code computes with IEEE doubles and the
library functions Math.sin, Math.cos, Math.asin, Math.atan2, Math.sqrt and
Math.PI.  The embedding works over ℚ and abstracts those transcendental
functions into a `MathModel` record; theorems quantify over every model
satisfying the bounds real analysis provides (for example `|sin x| ≤ 1`),
so they hold in particular for the model the code computes with.
Concrete models are supplied for witnesses and counterexamples.
-/

namespace RunningRoutes

/-- A WGS84 point, `{ lat, lng }` in degrees (route-generator.ts `RoutePoint`). -/
structure RoutePoint where
  lat : ℚ
  lng : ℚ
deriving DecidableEq, Repr

/-- User preferences (route-generator.ts `RoutePreferences`, live pipeline). -/
structure RoutePreferences where
  lowTraffic : Bool
deriving DecidableEq, Repr

/-- Abstraction of the transcendental functions used by the source
(`Math.PI`, `Math.sin`, `Math.cos`, `Math.asin`, `Math.atan2`, `Math.sqrt`). -/
structure MathModel where
  pi : ℚ
  sin : ℚ → ℚ
  cos : ℚ → ℚ
  asin : ℚ → ℚ
  atan2 : ℚ → ℚ → ℚ
  sqrt : ℚ → ℚ

/-- Degrees to radians, `(d * Math.PI) / 180`. -/
def toRad (m : MathModel) (d : ℚ) : ℚ := d * m.pi / 180

/-- Haversine distance in km between two points (the `haversineDistance`
helper duplicated in the OSRM generator and overpass.ts). -/
def haversineDistance (m : MathModel) (p1 p2 : RoutePoint) : ℚ :=
  let dLat := toRad m (p2.lat - p1.lat)
  let dLng := toRad m (p2.lng - p1.lng)
  let a := m.sin (dLat / 2) ^ 2 +
    m.cos (toRad m p1.lat) * m.cos (toRad m p2.lat) * m.sin (dLng / 2) ^ 2
  6371 * 2 * m.atan2 (m.sqrt a) (m.sqrt (1 - a))

/-- Forward geodesic projection (`destinationPoint` in the OSRM generator). -/
def destinationPoint (m : MathModel) (origin : RoutePoint) (bearingDeg distanceKm : ℚ) :
    RoutePoint :=
  let d := distanceKm / 6371
  let brng := bearingDeg * m.pi / 180
  let lat1 := origin.lat * m.pi / 180
  let lng1 := origin.lng * m.pi / 180
  let lat2 := m.asin (m.sin lat1 * m.cos d + m.cos lat1 * m.sin d * m.cos brng)
  let lng2 := lng1 +
    m.atan2 (m.sin brng * m.sin d * m.cos lat1) (m.cos d - m.sin lat1 * m.sin lat2)
  ⟨lat2 * 180 / m.pi, lng2 * 180 / m.pi⟩

/-- Scan of `greenSpaces` keeping the first point of strictly minimal
distance, mirroring the `nearest`/`nearestDist` loop of `selectWaypoint`. -/
def findNearest (m : MathModel) (p : RoutePoint) :
    Option (RoutePoint × ℚ) → List RoutePoint → Option (RoutePoint × ℚ)
  | best, [] => best
  | best, g :: gs =>
    let d := haversineDistance m p g
    match best with
    | none => findNearest m p (some (g, d)) gs
    | some (b, bd) =>
      if d < bd then findNearest m p (some (g, d)) gs
      else findNearest m p (some (b, bd)) gs

/-- Snap a geometric waypoint toward the nearest green space if within range
(`selectWaypoint` in the OSRM generator; `greenBlend` defaults to 0.7 at the
call sites that do not pass it). -/
def selectWaypoint (m : MathModel) (geometricPoint : RoutePoint)
    (greenSpaces : List RoutePoint) (maxSnapDistance greenBlend : ℚ) : RoutePoint :=
  if greenSpaces.isEmpty then geometricPoint
  else
    match findNearest m geometricPoint none greenSpaces with
    | none => geometricPoint
    | some (nearest, nearestDist) =>
      if maxSnapDistance < nearestDist then geometricPoint
      else
        ⟨greenBlend * nearest.lat + (1 - greenBlend) * geometricPoint.lat,
         greenBlend * nearest.lng + (1 - greenBlend) * geometricPoint.lng⟩

/-- Input record of `scoreRoute` (route-scoring.ts `ScoringCandidate`). -/
structure ScoringCandidate where
  distanceKm : ℚ
  targetDistanceKm : ℚ
deriving DecidableEq, Repr

/-- route-scoring.ts `scoreRoute`: weighted preference/distance-fidelity
score of a candidate. -/
def scoreRoute (candidate : ScoringCandidate) (prefs : RoutePreferences)
    (quietScore : ℚ) : ℚ :=
  let totalWeight : ℚ := if prefs.lowTraffic then 2/5 else 0
  let weightedSum : ℚ := if prefs.lowTraffic then 2/5 * quietScore else 0
  let distWeight : ℚ := max (1 - totalWeight) (1/5)
  let totalWeight2 := totalWeight + distWeight
  let r0 : ℚ :=
    if 0 < candidate.targetDistanceKm then candidate.distanceKm / candidate.targetDistanceKm
    else 1
  let distScore : ℚ := max (1 - |1 - r0| * 2) 0
  let weightedSum2 := weightedSum + distWeight * distScore
  if 0 < totalWeight2 then weightedSum2 / totalWeight2 else 1/2

/-! ### Feature query client: quiet score (overpass.ts `fetchQuietScore`) -/

/-- A road way returned by the Overpass query, reduced to the only field the
code reads (`el.tags?.highway`); a missing tag object or tag is `none`. -/
structure RoadElement where
  highway : Option String
deriving DecidableEq, Repr

/-- Outcome of the quiet-score network call: a thrown/timed-out fetch, a
non-2xx response, or a parsed JSON body with its `elements` array
(a missing array is observationally the empty list). -/
inductive QuietFetchResult where
  | fetchFailed : QuietFetchResult
  | httpNotOk : QuietFetchResult
  | ok : List RoadElement → QuietFetchResult
deriving DecidableEq, Repr

/-- The `majorTypes` set of overpass.ts. -/
def majorTypes : List String :=
  ["primary", "secondary", "trunk", "primary_link", "trunk_link"]

/-- Classification of one returned way in the counting loop of
`fetchQuietScore`: tagged with one of `majorTypes`, else quiet. -/
def isMajor (el : RoadElement) : Bool :=
  match el.highway with
  | some hw => majorTypes.contains hw
  | none => false

/-- overpass.ts `fetchQuietScore`, with the network call abstracted into its
outcome.  The in-memory cache is omitted: it only replays values previously
computed by this same function. -/
def fetchQuietScore (points : List RoutePoint) (resp : QuietFetchResult) : ℚ :=
  if points.length < 2 then 1/2
  else
    match resp with
    | .fetchFailed => 1/2
    | .httpNotOk => 1/2
    | .ok elements =>
      if elements.isEmpty then 1/2
      else
        let majorCount := (elements.filter isMajor).length
        let quietCount := (elements.filter fun el => !(isMajor el)).length
        let total := majorCount + quietCount
        if total = 0 then 1/2 else (quietCount : ℚ) / (total : ℚ)

/-! ### Feature query client: green spaces (overpass.ts
`fetchGreenSpaceLocations`) -/

/-- The tag fields read by the green-space parser (`el.tags || {}` with
`tags.leisure`, `tags.highway`, `tags.name`); a missing tag is `none`. -/
structure GreenTags where
  leisure : Option String
  highway : Option String
  name : Option String
deriving DecidableEq, Repr

/-- One element of the green-space Overpass response: `type`, optional
node coordinates, optional way `center` coordinates, and tags. -/
structure GreenElement where
  type : String
  lat : Option ℚ
  lon : Option ℚ
  center : Option RoutePoint
  tags : GreenTags
deriving DecidableEq, Repr

/-- Outcome of the green-space network call. -/
inductive GreenFetchResult where
  | fetchFailed : GreenFetchResult
  | httpNotOk : GreenFetchResult
  | ok : List GreenElement → GreenFetchResult
deriving DecidableEq, Repr

/-- Point extraction of the parsing loop: a node with both coordinates, or
a way with a `center`; anything else yields no point. -/
def parseGreenPoint (el : GreenElement) : Option RoutePoint :=
  if el.type = "node" then
    match el.lat, el.lon with
    | some la, some lo => some ⟨la, lo⟩
    | _, _ => none
  else if el.type = "way" then el.center
  else none

/-- JavaScript truthiness of an optional string tag (`!!tags.name`,
`highway && ...`): present and non-empty. -/
def strTruthy : Option String → Bool
  | some s => s != ""
  | none => false

/-- The `leisureTypes` set of the green-space parser. -/
def leisureTypes : List String := ["park", "nature_reserve", "garden"]

/-- Tier-1 test of the parsing loop: a park/nature-reserve/garden leisure
tag, or a highway way that has a (truthy) name. -/
def isTier1 (tags : GreenTags) : Bool :=
  (match tags.leisure with
   | some l => leisureTypes.contains l
   | none => false)
  || (strTruthy tags.highway && strTruthy tags.name)

/-- The parsing loop of `fetchGreenSpaceLocations`: walk the elements in
order, turn each into a point when possible and push it onto tier 1 or
tier 2. -/
def classifyGreen : List GreenElement → List RoutePoint × List RoutePoint
  | [] => ([], [])
  | el :: rest =>
    let (t1, t2) := classifyGreen rest
    match parseGreenPoint el with
    | none => (t1, t2)
    | some p => if isTier1 el.tags then (p :: t1, t2) else (t1, p :: t2)

/-- The 50 m (0.05 km) suppression threshold of the dedup closure. -/
def dedupThreshold : ℚ := 1/20

/-- Body of the `dedup` closure: `result` is the list kept so far; a point
is kept only when no kept point is within `dedupThreshold` of it. -/
def dedupGo (m : MathModel) : List RoutePoint → List RoutePoint → List RoutePoint
  | _, [] => []
  | result, p :: ps =>
    if result.any fun r => haversineDistance m r p < dedupThreshold then
      dedupGo m result ps
    else p :: dedupGo m (result ++ [p]) ps

/-- The greedy order-preserving 50 m dedup of `fetchGreenSpaceLocations`. -/
def dedup (m : MathModel) (points : List RoutePoint) : List RoutePoint :=
  dedupGo m [] points

/-- The tier-2 comparator sort: ascending haversine distance to `center`
(`dedupedTier2.sort(...)`; JavaScript array sort is stable). -/
def sortByDist (m : MathModel) (center : RoutePoint) (l : List RoutePoint) :
    List RoutePoint :=
  l.mergeSort fun a b =>
    decide (haversineDistance m center a ≤ haversineDistance m center b)

/-- overpass.ts `fetchGreenSpaceLocations`, with the network call abstracted
into its outcome; `radiusKm` only shapes the query string.  The cache is
omitted as in `fetchQuietScore`. -/
def fetchGreenSpaceLocations (m : MathModel) (center : RoutePoint)
    (radiusKm : ℚ) (resp : GreenFetchResult) : List RoutePoint :=
  match resp with
  | .fetchFailed => []
  | .httpNotOk => []
  | .ok elements =>
    if elements.isEmpty then []
    else
      let (tier1, tier2) := classifyGreen elements
      let dedupedTier1 := dedup m tier1
      let dedupedTier2 := dedup m tier2
      let sorted := sortByDist m center dedupedTier2
      let maxTotal : ℕ := 15
      let remaining := maxTotal - dedupedTier1.length
      dedupedTier1 ++ sorted.take remaining

/-- Tier-1 points of a response in input order, as the spec describes them:
park/garden/nature-reserve features, or highway ways that have a name. -/
def tier1Spec (es : List GreenElement) : List RoutePoint :=
  es.filterMap fun el => if isTier1 el.tags then parseGreenPoint el else none

/-- Tier-2 points of a response in input order: every other parsed point. -/
def tier2Spec (es : List GreenElement) : List RoutePoint :=
  es.filterMap fun el => if isTier1 el.tags then none else parseGreenPoint el

/-- The spec's description of the green-space result: all deduplicated
tier-1 points in input order, then the nearest deduplicated tier-2 points,
only as many as needed to reach 15 points total. -/
def greenSpec (m : MathModel) (center : RoutePoint) (es : List GreenElement) :
    List RoutePoint :=
  dedup m (tier1Spec es) ++
    (sortByDist m center (dedup m (tier2Spec es))).take
      (15 - (dedup m (tier1Spec es)).length)

/-! ### Waypoint synthesizer (OSRM route generator) -/

/-- Radius of the i-th loop waypoint before projection:
`baseRadius * radiusFactor * scenicMultiplier` with
`baseRadius = distanceKm / (2π)`,
`radiusFactor = 0.9 + sin(variant*1000 + i*2.4) * 0.15` and
`scenicMultiplier = 0.95`. -/
def loopRadius (m : MathModel) (distanceKm : ℚ) (variant i : ℕ) : ℚ :=
  let baseRadius := distanceKm / (2 * m.pi)
  let radiusFactor := 9/10 + m.sin ((variant : ℚ) * 1000 + (i : ℚ) * (12/5)) * (3/20)
  let scenicMultiplier : ℚ := 19/20
  baseRadius * radiusFactor * scenicMultiplier

/-- `generateLoopWaypoints`: `4 + variant` projected waypoints between two
copies of the center. -/
def generateLoopWaypoints (m : MathModel) (center : RoutePoint) (distanceKm : ℚ)
    (prefs : RoutePreferences) (variant : ℕ) (greenSpaces : List RoutePoint) :
    List RoutePoint :=
  let numWaypoints := 4 + variant
  let startBearing : ℚ := (variant : ℚ) * 73 + (if prefs.lowTraffic then 45 else 0)
  let maxSnapDistance := distanceKm * (1/4)
  let mids := (List.range numWaypoints).map fun (i : ℕ) =>
    let angle := startBearing + (360 / (numWaypoints : ℚ)) * (i : ℚ)
    let bearingOffset :=
      if prefs.lowTraffic then m.sin ((variant : ℚ) * 2000 + (i : ℚ) * (37/10)) * 20
      else m.sin ((variant : ℚ) * 2000 + (i : ℚ) * (37/10)) * 8
    selectWaypoint m
      (destinationPoint m center (angle + bearingOffset) (loopRadius m distanceKm variant i))
      greenSpaces maxSnapDistance (7/10)
  center :: (mids ++ [center])

/-- One outbound step of `generateOutAndBackWaypoints` (loop body for index
`i`, acting on the previous point). -/
def outAndBackStep (m : MathModel) (distanceKm : ℚ) (prefs : RoutePreferences)
    (variant : ℕ) (greenSpaces : List RoutePoint) (i : ℕ) (prev : RoutePoint) :
    RoutePoint :=
  let halfDistance := distanceKm / 2
  let segmentDist := halfDistance / 3
  let mainBearing : ℚ := (variant : ℚ) * 97 + (if prefs.lowTraffic then 30 else 0)
  let maxSnapDistance := distanceKm * (1/4)
  let bearingOffset := m.sin ((variant : ℚ) * 3000 + (i : ℚ) * (477/10)) * 10
  let distFactor := 19/20 + m.sin ((variant : ℚ) * 4000 + (i : ℚ) * (631/10)) * (1/10)
  let point := destinationPoint m prev (mainBearing + bearingOffset) (segmentDist * distFactor)
  let blend : ℚ := if i = 3 then 4/5 else 7/10
  selectWaypoint m point greenSpaces maxSnapDistance blend

/-- The outbound loop of `generateOutAndBackWaypoints`: `fuel` more points
starting at index `i` from the previous point `prev`. -/
def outAndBackOut (m : MathModel) (distanceKm : ℚ) (prefs : RoutePreferences)
    (variant : ℕ) (greenSpaces : List RoutePoint) :
    ℕ → ℕ → RoutePoint → List RoutePoint
  | _, 0, _ => []
  | i, fuel + 1, prev =>
    let p := outAndBackStep m distanceKm prefs variant greenSpaces i prev
    p :: outAndBackOut m distanceKm prefs variant greenSpaces (i + 1) fuel p

/-- `generateOutAndBackWaypoints`: 3 outbound steps from the center, then
the reversed outbound sequence minus the turnaround, each return point
nudged by a deterministic offset. -/
def generateOutAndBackWaypoints (m : MathModel) (center : RoutePoint)
    (distanceKm : ℚ) (prefs : RoutePreferences) (variant : ℕ)
    (greenSpaces : List RoutePoint) : List RoutePoint :=
  let outPoints :=
    center :: outAndBackOut m distanceKm prefs variant greenSpaces 1 3 center
  let returnPoints := (outPoints.reverse.drop 1).enum.map fun ip =>
    (⟨ip.2.lat + m.sin ((variant : ℚ) * 5000 + (ip.1 : ℚ) * (839/10)) * (3/10000),
      ip.2.lng + m.cos ((variant : ℚ) * 6000 + (ip.1 : ℚ) * (913/10)) * (3/10000)⟩ :
      RoutePoint)
  outPoints ++ returnPoints

/-- `generatePointToPointWaypoints`: start, 2 interpolated waypoints bowed
perpendicular to the start→end vector, then the supplied end. -/
def generatePointToPointWaypoints (m : MathModel) (start endP : RoutePoint)
    (prefs : RoutePreferences) (variant : ℕ) (greenSpaces : List RoutePoint) :
    List RoutePoint :=
  let numWaypoints := 2
  let maxSnapDistance := haversineDistance m start endP * (1/5)
  let dLat := endP.lat - start.lat
  let dLng := endP.lng - start.lng
  let perpLat := -dLng
  let perpLng := dLat
  let mids := (List.range numWaypoints).map fun (j : ℕ) =>
    let i : ℕ := j + 1
    let t : ℚ := (i : ℚ) / ((numWaypoints : ℚ) + 1)
    let baseLat := start.lat + dLat * t
    let baseLng := start.lng + dLng * t
    let offset := m.sin ((variant : ℚ) * 7000 + (i : ℚ) * (1237/10)) * (1/20)
    selectWaypoint m ⟨baseLat + perpLat * offset, baseLng + perpLng * offset⟩
      greenSpaces maxSnapDistance (7/10)
  start :: (mids ++ [endP])

/-! ### Route generation orchestrator (`generateOSRMRoutes`) -/

/-- The closed route-style union of the generator's `routeType` parameter. -/
inductive RouteType where
  | loop : RouteType
  | outAndBack : RouteType
  | pointToPoint : RouteType
deriving DecidableEq, Repr

/-- `CANDIDATE_COUNT`: the fixed number of synthesized candidates. -/
def CANDIDATE_COUNT : ℕ := 3

/-- `calculateSearchRadius`: green-space search radius by route type,
clamped to [1.5, 10] km. -/
def calculateSearchRadius (m : MathModel) (routeType : RouteType)
    (distanceKm : ℚ) (center : RoutePoint) (endP : Option RoutePoint) : ℚ :=
  let radius :=
    match routeType, endP with
    | .loop, _ => distanceKm * (4/5)
    | .outAndBack, _ => distanceKm * (3/5)
    | .pointToPoint, some e => haversineDistance m center e * (3/5)
    | .pointToPoint, none => distanceKm * (3/5)
  min (max radius (3/2)) 10

/-- The candidate dispatch of step 2 of `generateOSRMRoutes`:
point-to-point only with a supplied end, out-and-back by type, loop
otherwise. -/
def candidateWaypoints (m : MathModel) (center : RoutePoint) (distanceKm : ℚ)
    (routeType : RouteType) (prefs : RoutePreferences) (endP : Option RoutePoint)
    (greenSpaces : List RoutePoint) (variant : ℕ) : List RoutePoint :=
  match routeType, endP with
  | .pointToPoint, some e =>
    generatePointToPointWaypoints m center e prefs variant greenSpaces
  | .outAndBack, _ =>
    generateOutAndBackWaypoints m center distanceKm prefs variant greenSpaces
  | _, _ => generateLoopWaypoints m center distanceKm prefs variant greenSpaces

/-- Step 1 of `generateOSRMRoutes`: green spaces are fetched once, only
when `lowTraffic` is on, with the computed search radius. -/
def effectiveGreenSpaces (m : MathModel) (center : RoutePoint) (distanceKm : ℚ)
    (routeType : RouteType) (prefs : RoutePreferences) (endP : Option RoutePoint)
    (greenFetch : ℚ → List RoutePoint) : List RoutePoint :=
  if prefs.lowTraffic then
    greenFetch (calculateSearchRadius m routeType distanceKm center endP)
  else []

/-- GeoJSON geometry of an OSRM route (`[lng, lat]` coordinate pairs). -/
structure OSRMGeometry where
  coordinates : List (ℚ × ℚ)
deriving DecidableEq, Repr

/-- One OSRM route: geometry, distance in meters, duration in seconds. -/
structure OSRMRoute where
  geometry : OSRMGeometry
  distance : ℚ
  duration : ℚ
deriving DecidableEq, Repr

/-- A resolved candidate (`ResolvedCandidate` in the generator). -/
structure ResolvedCandidate where
  index : ℕ
  variant : ℕ
  points : List RoutePoint
  distKm : ℚ
  estimatedTime : ℤ
  fromOSRM : Bool
deriving DecidableEq, Repr

/-- A scored candidate of step 5. -/
structure ScoredCandidate where
  candidate : ResolvedCandidate
  score : ℚ
  quietScore : ℚ
deriving DecidableEq, Repr

/-- The externally visible result (`GeneratedRoute`). -/
structure GeneratedRoute where
  id : String
  name : String
  points : List RoutePoint
  distance : ℚ
  estimatedTime : ℤ
  elevationGain : ℤ
  terrain : String
  difficulty : String
deriving DecidableEq, Repr

/-- JavaScript `Math.round`: round half toward positive infinity. -/
def jsRound (x : ℚ) : ℤ := ⌊x + 1/2⌋

/-- `Math.round(x * 100) / 100`: the 2-decimal rounding applied to the
route distance. -/
def round2 (x : ℚ) : ℚ := (jsRound (x * 100) : ℚ) / 100

/-- The fallback distance estimate: cumulative haversine over consecutive
points (`wp.reduce(...)` in the generator). -/
def cumDist (m : MathModel) : List RoutePoint → ℚ
  | [] => 0
  | p :: ps => cumDistGo m p ps
where
  cumDistGo (m : MathModel) : RoutePoint → List RoutePoint → ℚ
    | _, [] => 0
    | prev, q :: qs => haversineDistance m prev q + cumDistGo m q qs

/-- Step 3 of `generateOSRMRoutes` for one candidate: the OSRM result when
the router call succeeds, else the raw-skeleton fallback. -/
def resolveCandidate (m : MathModel) (router : List RoutePoint → Option OSRMRoute)
    (i variant : ℕ) (waypoints : List RoutePoint) : ResolvedCandidate :=
  match router waypoints with
  | some osrmRoute =>
    ⟨i, variant, osrmRoute.geometry.coordinates.map fun c => ⟨c.2, c.1⟩,
      osrmRoute.distance / 1000, jsRound (osrmRoute.duration / 60), true⟩
  | none =>
    ⟨i, variant, waypoints, cumDist m waypoints,
      jsRound (cumDist m waypoints * 6), false⟩

/-- `hasPreferenceAPIsToCall`. -/
def hasPreferenceAPIsToCall (prefs : RoutePreferences) : Bool := prefs.lowTraffic

/-- `fabricateElevationGain`. -/
def fabricateElevationGain (distKm : ℚ) (variant : ℕ) : ℤ :=
  jsRound (5 + distKm * 3 + (variant : ℚ) * 2)

/-- The quiet name pool of `ROUTE_NAMES`. -/
def routeNamesQuiet : List String :=
  ["Backstreet Run", "Quiet Lanes", "Residential Circuit", "Sidestreet Shuffle",
   "Neighborhood Loop", "Peaceful Path"]

/-- The default name pool of `ROUTE_NAMES`. -/
def routeNamesDefault : List String :=
  ["Downtown Explorer", "City Loop", "Urban Circuit", "Coastal Breeze Route",
   "Bridge Connector", "Meadow Circuit"]

/-- `pickRouteName`: deterministic pick from the pool by
`abs((index + floor(lat*10)) % pool.length)` (JavaScript `%` truncates). -/
def pickRouteName (prefs : RoutePreferences) (index : ℕ) (lat : ℚ) : String :=
  let pool := if prefs.lowTraffic then routeNamesQuiet else routeNamesDefault
  pool.getD ((((index : ℤ) + ⌊lat * 10⌋).tmod (pool.length : ℤ)).natAbs) ""

/-- The terrain label of step 6, from the requested route type alone. -/
def terrainOf (routeType : RouteType) : String :=
  match routeType with
  | .pointToPoint => "Point to Point"
  | .loop => "Loop"
  | .outAndBack => "Out & Back"

/-- Materialization of one surviving candidate into a `GeneratedRoute`
(the final `topCandidates.map`); the nondeterministic id suffix is
abstracted into `mkId`. -/
def materializeRoute (prefs : RoutePreferences) (terrain : String)
    (centerLat : ℚ) (mkId : ℕ → String) (s : ScoredCandidate) : GeneratedRoute :=
  let c := s.candidate
  ⟨mkId c.index, pickRouteName prefs c.index centerLat, c.points,
    round2 c.distKm, c.estimatedTime, fabricateElevationGain c.distKm c.variant,
    terrain,
    if c.distKm < 5 then "easy" else if c.distKm < 10 then "moderate" else "hard"⟩

/-- `generateOSRMRoutes`: the full pipeline, with the three network
dependencies abstracted into oracles (`router` for OSRM per candidate,
`greenFetch` for the green-space pre-fetch by radius, `quietFetch` for the
per-candidate quiet score). -/
def generateOSRMRoutes (m : MathModel) (center : RoutePoint) (distanceKm : ℚ)
    (routeType : RouteType) (count : ℕ) (prefs : RoutePreferences)
    (endP : Option RoutePoint) (router : List RoutePoint → Option OSRMRoute)
    (greenFetch : ℚ → List RoutePoint) (quietFetch : List RoutePoint → ℚ)
    (mkId : ℕ → String) : List GeneratedRoute :=
  let greenSpaces := effectiveGreenSpaces m center distanceKm routeType prefs endP greenFetch
  let resolved := (List.range CANDIDATE_COUNT).map fun i =>
    resolveCandidate m router i (i + 1)
      (candidateWaypoints m center distanceKm routeType prefs endP greenSpaces (i + 1))
  let scored := resolved.map fun c =>
    let quietScore := if hasPreferenceAPIsToCall prefs then quietFetch c.points else 1/2
    (⟨c, scoreRoute ⟨c.distKm, distanceKm⟩ prefs quietScore, quietScore⟩ : ScoredCandidate)
  let sorted := scored.mergeSort fun a b => decide (b.score ≤ a.score)
  let topCandidates := sorted.take count
  topCandidates.map (materializeRoute prefs (terrainOf routeType) center.lat mkId)

/-! ### Concrete models for witnesses and counterexamples -/

/-- A concrete rational model.  It agrees with real mathematics at every
argument the concrete evaluations below reach (`sin 0 = 0`, `sqrt 0 = 0`,
`sqrt 1 = 1`, `atan2 0 y = 0`), and its sine is bounded by 1. -/
def qmodel : MathModel :=
  ⟨3, fun _ => 0, fun _ => 1, fun x => x, fun a _ => a, fun x => x⟩

/-- A model whose sine is the constant -1 (an admissible value of a real
sine), exhibiting the lower edge of the loop-radius jitter. -/
def negModel : MathModel :=
  ⟨3, fun _ => -1, fun _ => 1, fun x => x, fun a _ => a, fun x => x⟩

/-! ### Theorems -/

lemma qmodel_haversine (p q : RoutePoint) : haversineDistance qmodel p q = 0 := by
  simp [haversineDistance, qmodel]

lemma cumDistGo_nonneg (m : MathModel)
    (hnn : ∀ p q : RoutePoint, 0 ≤ haversineDistance m p q) :
    ∀ (prev : RoutePoint) (l : List RoutePoint), 0 ≤ cumDist.cumDistGo m prev l := by
  intro prev l
  induction l generalizing prev with
  | nil => simp [cumDist.cumDistGo]
  | cons q qs ih =>
    simp only [cumDist.cumDistGo]
    have := hnn prev q
    have := ih q
    linarith

lemma cumDist_nonneg (m : MathModel)
    (hnn : ∀ p q : RoutePoint, 0 ≤ haversineDistance m p q)
    (l : List RoutePoint) : 0 ≤ cumDist m l := by
  cases l with
  | nil => simp [cumDist]
  | cons p ps => exact cumDistGo_nonneg m hnn p ps

lemma round2_nonneg (x : ℚ) (hx : 0 ≤ x) : 0 ≤ round2 x := by
  have h : (0 : ℤ) ≤ jsRound (x * 100) := by
    rw [jsRound, Int.le_floor]
    push_cast
    linarith
  rw [round2]
  positivity

lemma length_generateLoopWaypoints (m : MathModel) (center : RoutePoint)
    (d : ℚ) (prefs : RoutePreferences) (v : ℕ) (gs : List RoutePoint) :
    (generateLoopWaypoints m center d prefs v gs).length = v + 6 := by
  simp only [generateLoopWaypoints, List.length_cons, List.length_append,
    List.length_map, List.length_range, List.length_singleton, List.length_nil]
  omega

lemma length_outAndBackOut (m : MathModel) (d : ℚ) (prefs : RoutePreferences)
    (v : ℕ) (gs : List RoutePoint) :
    ∀ (fuel i : ℕ) (prev : RoutePoint),
      (outAndBackOut m d prefs v gs i fuel prev).length = fuel := by
  intro fuel
  induction fuel with
  | zero => intro i prev; rfl
  | succ n ih =>
    intro i prev
    simp only [outAndBackOut, List.length_cons, ih]

lemma length_generateOutAndBackWaypoints (m : MathModel) (center : RoutePoint)
    (d : ℚ) (prefs : RoutePreferences) (v : ℕ) (gs : List RoutePoint) :
    (generateOutAndBackWaypoints m center d prefs v gs).length = 7 := by
  simp only [generateOutAndBackWaypoints, List.length_append, List.length_cons,
    List.length_map, List.enum_length, List.length_drop, List.length_reverse,
    length_outAndBackOut]

lemma length_generatePointToPointWaypoints (m : MathModel) (s e : RoutePoint)
    (prefs : RoutePreferences) (v : ℕ) (gs : List RoutePoint) :
    (generatePointToPointWaypoints m s e prefs v gs).length = 4 := by
  simp only [generatePointToPointWaypoints, List.length_cons, List.length_append,
    List.length_map, List.length_range, List.length_singleton, List.length_nil]

lemma getLast_cons_append (a b : RoutePoint) (l : List RoutePoint) :
    (a :: (l ++ [b])).getLast? = some b := by
  rw [← List.cons_append, List.getLast?_concat]

/-- C5: every synthesized skeleton starts at the start anchor exactly; loop
skeletons also end at the anchor, and point-to-point skeletons end at the
supplied end — for every variant, preference set, target distance and
green-space list (snapping never moves the endpoints). -/
theorem skeleton_endpoints (m : MathModel) (center s e : RoutePoint) (d : ℚ)
    (prefs : RoutePreferences) (v : ℕ) (gs : List RoutePoint) :
    (generateLoopWaypoints m center d prefs v gs).head? = some center
    ∧ (generateLoopWaypoints m center d prefs v gs).getLast? = some center
    ∧ (generateOutAndBackWaypoints m center d prefs v gs).head? = some center
    ∧ (generatePointToPointWaypoints m s e prefs v gs).head? = some s
    ∧ (generatePointToPointWaypoints m s e prefs v gs).getLast? = some e := by
  refine ⟨rfl, ?_, rfl, rfl, ?_⟩
  · exact getLast_cons_append center center _
  · exact getLast_cons_append s e _

/-- C8 (amended): every skeleton the orchestrator can request has between
4 and 12 points inclusive — loop skeletons have `variant + 6` points
(7 to 9 for variants 1..3), out-and-back skeletons 7, point-to-point
skeletons 4. -/
theorem skeleton_length_bounds (m : MathModel) (center : RoutePoint) (d : ℚ)
    (routeType : RouteType) (prefs : RoutePreferences) (endP : Option RoutePoint)
    (gs : List RoutePoint) (v : ℕ) (h1 : 1 ≤ v) (h3 : v ≤ 3) :
    4 ≤ (candidateWaypoints m center d routeType prefs endP gs v).length
    ∧ (candidateWaypoints m center d routeType prefs endP gs v).length ≤ 12 := by
  cases routeType <;> cases endP <;>
    simp only [candidateWaypoints, length_generateLoopWaypoints,
      length_generateOutAndBackWaypoints, length_generatePointToPointWaypoints] <;>
    omega

/-- Witness for `skeleton_length_bounds` at a concrete loop request. -/
theorem skeleton_length_bounds_witness :
    4 ≤ (candidateWaypoints qmodel ⟨0, 0⟩ 5 .loop ⟨false⟩ none [] 1).length
    ∧ (candidateWaypoints qmodel ⟨0, 0⟩ 5 .loop ⟨false⟩ none [] 1).length ≤ 12 :=
  skeleton_length_bounds qmodel ⟨0, 0⟩ 5 .loop ⟨false⟩ none [] 1
    (by norm_num) (by norm_num)

/-- C8 counterexample: a point-to-point skeleton has exactly 4 points, so
the claimed lower bound of 5 fails. -/
theorem pointToPoint_skeleton_length_four :
    (generatePointToPointWaypoints qmodel ⟨0, 0⟩ ⟨1, 1⟩ ⟨false⟩ 1 []).length = 4
    ∧ ¬ (5 ≤ (generatePointToPointWaypoints qmodel ⟨0, 0⟩ ⟨1, 1⟩ ⟨false⟩ 1 []).length) := by
  constructor <;> simp [length_generatePointToPointWaypoints]

/-- C9 (amended): the i-th loop waypoint is projected from the anchor at a
radius between `0.7125 r` and `0.9975 r` where `r = targetDistanceKm/(2π)`
is the nominal radius — the code computes
`r * (0.9 + 0.15 sin(...)) * 0.95`, so the band is `r * 0.95 * (0.9 ± 0.15)`,
not the claimed `±15%` of `r` — for every model whose sine is bounded by 1,
every variant, every waypoint index and every positive target distance. -/
theorem loopRadius_bounds (m : MathModel) (d : ℚ) (v i : ℕ)
    (hsin : ∀ x, |m.sin x| ≤ 1) (hd : 0 < d) (hpi : 0 < m.pi) :
    57/80 * (d / (2 * m.pi)) ≤ loopRadius m d v i
    ∧ loopRadius m d v i ≤ 399/400 * (d / (2 * m.pi)) := by
  have hs := abs_le.mp (hsin ((v : ℚ) * 1000 + (i : ℚ) * (12/5)))
  have hr : 0 ≤ d / (2 * m.pi) := by positivity
  simp only [loopRadius]
  constructor <;> nlinarith [hs.1, hs.2, hr]

/-- Witness for `loopRadius_bounds` with the concrete model `qmodel`. -/
theorem loopRadius_bounds_witness :
    57/80 * ((6:ℚ) / (2 * qmodel.pi)) ≤ loopRadius qmodel 6 1 0
    ∧ loopRadius qmodel 6 1 0 ≤ 399/400 * ((6:ℚ) / (2 * qmodel.pi)) :=
  loopRadius_bounds qmodel 6 1 0 (fun x => by norm_num [qmodel])
    (by norm_num) (by norm_num [qmodel])

/-- C9 counterexample: with the admissible sine value -1 (the real
`Math.sin(1002.4)` is ≈ -0.23, already below the -0.035 threshold) the
projected radius `0.7125 r` falls outside the claimed band `[0.85 r, 1.15 r]`. -/
theorem loopRadius_outside_claimed_band :
    (∀ x, |negModel.sin x| ≤ 1) ∧ 0 < (6:ℚ) ∧ 0 < negModel.pi
    ∧ loopRadius negModel 6 1 0 = 57/80
    ∧ ¬ (17/20 * ((6:ℚ) / (2 * negModel.pi)) ≤ loopRadius negModel 6 1 0) := by
  refine ⟨fun x => by norm_num [negModel], by norm_num, by norm_num [negModel], ?_, ?_⟩ <;>
    norm_num [loopRadius, negModel]

/-- C1: for a positive target distance `scoreRoute` is the weighted average,
normalized by the total weight used, of the quiet score (weight 0.4, only
when `lowTraffic`) and the triangular distance-fidelity term
`max (1 - |1 - distanceKm/targetDistanceKm| * 2) 0` (weight 0.6 when
`lowTraffic`, else 1).  In particular it is 1 at perfect distance with
`lowTraffic` off for any quiet score, 1 with `lowTraffic` on and quiet 1,
0.6 with `lowTraffic` on and quiet 0; the distance term is 1 at the target,
0 at distance 0 and at twice the target, and never negative. -/
theorem scoreRoute_weight_law :
    (∀ (c : ScoringCandidate) (prefs : RoutePreferences) (q : ℚ),
      0 < c.targetDistanceKm →
      scoreRoute c prefs q =
        (if prefs.lowTraffic then
          2/5 * q + 3/5 * max (1 - |1 - c.distanceKm / c.targetDistanceKm| * 2) 0
        else max (1 - |1 - c.distanceKm / c.targetDistanceKm| * 2) 0))
    ∧ (∀ e q : ℚ, scoreRoute ⟨e, e⟩ ⟨false⟩ q = 1)
    ∧ (∀ e : ℚ, scoreRoute ⟨e, e⟩ ⟨true⟩ 1 = 1)
    ∧ (∀ e : ℚ, scoreRoute ⟨e, e⟩ ⟨true⟩ 0 = 3/5)
    ∧ (∀ t q : ℚ, 0 < t → scoreRoute ⟨0, t⟩ ⟨false⟩ q = 0)
    ∧ (∀ t q : ℚ, 0 < t → scoreRoute ⟨2 * t, t⟩ ⟨false⟩ q = 0)
    ∧ (∀ (c : ScoringCandidate) (q : ℚ), 0 ≤ scoreRoute c ⟨false⟩ q) := by
  have hformula : ∀ (c : ScoringCandidate) (prefs : RoutePreferences) (q : ℚ),
      0 < c.targetDistanceKm →
      scoreRoute c prefs q =
        (if prefs.lowTraffic then
          2/5 * q + 3/5 * max (1 - |1 - c.distanceKm / c.targetDistanceKm| * 2) 0
        else max (1 - |1 - c.distanceKm / c.targetDistanceKm| * 2) 0) := by
    intro c prefs q ht
    rcases prefs with ⟨lt⟩
    cases lt <;> simp only [scoreRoute, if_pos ht] <;> norm_num
  have hperfect : ∀ e : ℚ, (if 0 < e then e / e else 1) = 1 := by
    intro e
    by_cases he : 0 < e
    · rw [if_pos he, div_self (ne_of_gt he)]
    · rw [if_neg he]
  refine ⟨hformula, ?_, ?_, ?_, ?_, ?_, ?_⟩
  · intro e q
    simp only [scoreRoute, hperfect]
    norm_num
  · intro e
    simp only [scoreRoute, hperfect]
    norm_num
  · intro e
    simp only [scoreRoute, hperfect]
    norm_num
  · intro t q ht
    simp only [scoreRoute, if_pos ht, zero_div]
    norm_num
  · intro t q ht
    have h2 : (2 * t) / t = 2 := by field_simp
    simp only [scoreRoute, if_pos ht, h2]
    norm_num
  · intro c q
    simp only [scoreRoute]
    norm_num

/-- Witness for `scoreRoute_weight_law` at concrete inputs. -/
theorem scoreRoute_weight_law_witness :
    scoreRoute ⟨3, 3⟩ ⟨true⟩ 1 = 1 ∧
    scoreRoute ⟨3, 3⟩ ⟨true⟩ 0 = 3/5 ∧
    scoreRoute ⟨0, 5⟩ ⟨false⟩ (1/2) = 0 ∧
    scoreRoute ⟨2 * 5, 5⟩ ⟨false⟩ (1/2) = 0 ∧
    scoreRoute ⟨4, 5⟩ ⟨true⟩ (1/2) =
      2/5 * (1/2) + 3/5 * max (1 - |1 - (4:ℚ) / 5| * 2) 0 := by
  refine ⟨scoreRoute_weight_law.2.2.1 3, scoreRoute_weight_law.2.2.2.1 3,
    scoreRoute_weight_law.2.2.2.2.1 5 (1/2) (by norm_num),
    scoreRoute_weight_law.2.2.2.2.2.1 5 (1/2) (by norm_num), ?_⟩
  have h := scoreRoute_weight_law.1 ⟨4, 5⟩ ⟨true⟩ (1/2) (by norm_num)
  simpa using h


/-- C3: `fetchQuietScore` is total (never raises) and always lands in
`[0,1]`; it is exactly 0.5 with fewer than 2 points, on a failed or
timed-out fetch, on a non-2xx status and on zero returned segments; on a
non-empty response it is `quietCount / (quietCount + majorCount)`, where
major means tagged primary/secondary/trunk/primary_link/trunk_link and
every other returned segment counts as quiet. -/
theorem fetchQuietScore_bounds (points : List RoutePoint) (resp : QuietFetchResult) :
    (0 ≤ fetchQuietScore points resp ∧ fetchQuietScore points resp ≤ 1)
    ∧ (points.length < 2 → fetchQuietScore points resp = 1/2)
    ∧ fetchQuietScore points .fetchFailed = 1/2
    ∧ fetchQuietScore points .httpNotOk = 1/2
    ∧ fetchQuietScore points (.ok []) = 1/2
    ∧ (∀ es : List RoadElement, es ≠ [] → 2 ≤ points.length →
        fetchQuietScore points (.ok es) =
          ((es.filter fun el => !(isMajor el)).length : ℚ) /
            (((es.filter fun el => !(isMajor el)).length : ℚ) +
              ((es.filter isMajor).length : ℚ))) := by
  have hformula : ∀ es : List RoadElement, es ≠ [] → 2 ≤ points.length →
      fetchQuietScore points (.ok es) =
        ((es.filter fun el => !(isMajor el)).length : ℚ) /
          (((es.filter fun el => !(isMajor el)).length : ℚ) +
            ((es.filter isMajor).length : ℚ)) := by
    intro es hne hlen
    have hnotlt : ¬ points.length < 2 := by omega
    have hne' : es.isEmpty = false := by
      cases es with
      | nil => exact absurd rfl hne
      | cons a l => rfl
    have hsum : (es.filter isMajor).length + (es.filter fun el => !(isMajor el)).length
        = es.length := (@List.length_eq_length_filter_add _ es isMajor).symm
    have hpos : 0 < es.length := List.length_pos.mpr hne
    have htot : ¬ ((es.filter isMajor).length + (es.filter fun el => !(isMajor el)).length = 0) := by
      omega
    simp only [fetchQuietScore, if_neg hnotlt, hne', Bool.false_eq_true, if_false, if_neg htot]
    push_cast
    ring_nf
  have hbounds : 0 ≤ fetchQuietScore points resp ∧ fetchQuietScore points resp ≤ 1 := by
    by_cases hlen : points.length < 2
    · simp only [fetchQuietScore, if_pos hlen]; norm_num
    · cases resp with
      | fetchFailed => simp only [fetchQuietScore, if_neg hlen]; norm_num
      | httpNotOk => simp only [fetchQuietScore, if_neg hlen]; norm_num
      | ok es =>
        cases hes : es.isEmpty with
        | true => simp only [fetchQuietScore, if_neg hlen, hes]; norm_num
        | false =>
          have hne : es ≠ [] := by
            cases es with
            | nil => simp at hes
            | cons a l => simp
          rw [hformula es hne (by omega)]
          have hsum : (es.filter isMajor).length + (es.filter fun el => !(isMajor el)).length
              = es.length := (@List.length_eq_length_filter_add _ es isMajor).symm
          have hpos : 0 < es.length := List.length_pos.mpr hne
          set a := ((es.filter fun el => !(isMajor el)).length : ℚ) with ha
          set b := ((es.filter isMajor).length : ℚ) with hb
          have ha0 : 0 ≤ a := by positivity
          have hb0 : 0 ≤ b := by positivity
          have habpos : 0 < a + b := by
            have : (0:ℚ) < (es.length : ℚ) := by exact_mod_cast hpos
            have : a + b = (es.length : ℚ) := by
              rw [ha, hb]; push_cast [← hsum]; ring
            rw [this]
            exact_mod_cast hpos
          constructor
          · positivity
          · rw [div_le_one habpos]; linarith
  refine ⟨hbounds, ?_, ?_, ?_, ?_, hformula⟩
  · intro h; simp only [fetchQuietScore, if_pos h]
  · by_cases hlen : points.length < 2 <;> simp [fetchQuietScore, hlen]
  · by_cases hlen : points.length < 2 <;> simp [fetchQuietScore, hlen]
  · by_cases hlen : points.length < 2 <;> simp [fetchQuietScore, hlen]

/-- Witness for `fetchQuietScore_bounds` at concrete inputs: two points, one
residential and one primary way give a quiet score of 1/2 via the counting
formula, and a failed fetch gives the neutral 0.5. -/
theorem fetchQuietScore_bounds_witness :
    fetchQuietScore [⟨0, 0⟩, ⟨1, 1⟩]
        (.ok [⟨some "residential"⟩, ⟨some "primary"⟩]) = 1 / (1 + 1)
    ∧ fetchQuietScore [⟨0, 0⟩] (.ok [⟨some "residential"⟩]) = 1/2 := by
  constructor
  · have h := (fetchQuietScore_bounds [⟨0, 0⟩, ⟨1, 1⟩]
      (.ok [⟨some "residential"⟩, ⟨some "primary"⟩])).2.2.2.2.2
      [⟨some "residential"⟩, ⟨some "primary"⟩] (by decide) (by decide)
    simpa [isMajor, majorTypes] using h
  · exact (fetchQuietScore_bounds [⟨0, 0⟩]
      (.ok [⟨some "residential"⟩])).2.1 (by decide)


lemma classifyGreen_eq (es : List GreenElement) :
    classifyGreen es = (tier1Spec es, tier2Spec es) := by
  induction es with
  | nil => rfl
  | cons el rest ih =>
    simp only [classifyGreen, ih, tier1Spec, tier2Spec, List.filterMap_cons]
    cases hp : parseGreenPoint el with
    | none => simp [hp]
    | some p =>
      by_cases h1 : isTier1 el.tags
      · simp [hp, h1]
      · simp [hp, h1]

lemma sortByDist_sorted (m : MathModel) (center : RoutePoint) (l : List RoutePoint) :
    (sortByDist m center l).Pairwise
      (fun a b => haversineDistance m center a ≤ haversineDistance m center b) := by
  have h := @List.sorted_mergeSort RoutePoint
    (fun a b : RoutePoint =>
      decide (haversineDistance m center a ≤ haversineDistance m center b))
    (fun a b c hab hbc => by
      simp only [decide_eq_true_eq] at hab hbc ⊢
      exact le_trans hab hbc)
    (fun a b => by
      simp only [Bool.or_eq_true, decide_eq_true_eq]
      exact le_total _ _)
    l
  exact h.imp (by simp only [decide_eq_true_eq]; exact fun h => h)

/-- C6: on a well-formed non-empty response the green-space result is the
deduplicated tier-1 points in input order followed by the deduplicated
tier-2 points sorted by ascending haversine distance to the center, the
latter truncated to fill up to 15 points total; so every tier-1 point
precedes every tier-2 point and no tier-1 point is dropped. -/
theorem fetchGreenSpaceLocations_tiered (m : MathModel) (center : RoutePoint)
    (radiusKm : ℚ) (es : List GreenElement) (hne : es ≠ []) :
    fetchGreenSpaceLocations m center radiusKm (.ok es) = greenSpec m center es
    ∧ (sortByDist m center (dedup m (tier2Spec es))).Pairwise
        (fun a b => haversineDistance m center a ≤ haversineDistance m center b)
    ∧ (fetchGreenSpaceLocations m center radiusKm (.ok es)).length
        = (dedup m (tier1Spec es)).length +
            min (15 - (dedup m (tier1Spec es)).length)
              (dedup m (tier2Spec es)).length := by
  have hne' : es.isEmpty = false := by
    cases es with
    | nil => exact absurd rfl hne
    | cons a l => rfl
  have heq : fetchGreenSpaceLocations m center radiusKm (.ok es) = greenSpec m center es := by
    simp only [fetchGreenSpaceLocations, hne', Bool.false_eq_true, if_false,
      classifyGreen_eq, greenSpec]
  refine ⟨heq, sortByDist_sorted m center _, ?_⟩
  rw [heq]
  simp only [greenSpec, List.length_append, List.length_take, sortByDist,
    List.length_mergeSort]

/-- Witness for `fetchGreenSpaceLocations_tiered` on a concrete two-element
response (one named park node, one unnamed footway way). -/
theorem fetchGreenSpaceLocations_tiered_witness :
    fetchGreenSpaceLocations ⟨3, fun _ => 0, fun _ => 1, fun x => x,
        fun a _ => a, fun x => x⟩ ⟨0, 0⟩ 2
        (.ok [⟨"node", some 10, some 10, none, ⟨some "park", none, none⟩⟩,
          ⟨"way", none, none, some ⟨20, 20⟩, ⟨none, some "footway", none⟩⟩]) =
      greenSpec ⟨3, fun _ => 0, fun _ => 1, fun x => x, fun a _ => a, fun x => x⟩
        ⟨0, 0⟩
        [⟨"node", some 10, some 10, none, ⟨some "park", none, none⟩⟩,
          ⟨"way", none, none, some ⟨20, 20⟩, ⟨none, some "footway", none⟩⟩] := by
  exact (fetchGreenSpaceLocations_tiered _ _ 2 _ (by decide)).1

/-- C7: the greedy order-preserving 50 m deduplication is idempotent —
re-running it on its own output changes nothing, for every input list and
every distance model. -/
theorem dedup_idempotent (m : MathModel) (points : List RoutePoint) :
    dedup m (dedup m points) = dedup m points := by
  suffices h : ∀ (ps : List RoutePoint) (acc : List RoutePoint),
      dedupGo m acc (dedupGo m acc ps) = dedupGo m acc ps by
    exact h points []
  intro ps
  induction ps with
  | nil => intro acc; rfl
  | cons p ps ih =>
    intro acc
    by_cases hnear : acc.any fun r => haversineDistance m r p < dedupThreshold
    · simp only [dedupGo, if_pos hnear, ih]
    · simp only [dedupGo, if_neg hnear, ih]


lemma generateOSRMRoutes_length (m : MathModel) (center : RoutePoint)
    (distanceKm : ℚ) (routeType : RouteType) (count : ℕ) (prefs : RoutePreferences)
    (endP : Option RoutePoint) (router : List RoutePoint → Option OSRMRoute)
    (greenFetch : ℚ → List RoutePoint) (quietFetch : List RoutePoint → ℚ)
    (mkId : ℕ → String) :
    (generateOSRMRoutes m center distanceKm routeType count prefs endP router
      greenFetch quietFetch mkId).length = min count CANDIDATE_COUNT := by
  simp [generateOSRMRoutes, List.length_take]

lemma mem_generateOSRMRoutes_fallback (m : MathModel) (center : RoutePoint)
    (distanceKm : ℚ) (routeType : RouteType) (count : ℕ) (prefs : RoutePreferences)
    (endP : Option RoutePoint) (router : List RoutePoint → Option OSRMRoute)
    (greenFetch : ℚ → List RoutePoint) (quietFetch : List RoutePoint → ℚ)
    (mkId : ℕ → String) (hrouter : ∀ wps, router wps = none) (r : GeneratedRoute)
    (hr : r ∈ generateOSRMRoutes m center distanceKm routeType count prefs endP
      router greenFetch quietFetch mkId) :
    ∃ v, 1 ≤ v ∧ v ≤ CANDIDATE_COUNT ∧
      r.points = candidateWaypoints m center distanceKm routeType prefs endP
        (effectiveGreenSpaces m center distanceKm routeType prefs endP greenFetch) v
      ∧ r.distance = round2 (cumDist m r.points)
      ∧ r.estimatedTime = jsRound (cumDist m r.points * 6) := by
  simp only [generateOSRMRoutes] at hr
  obtain ⟨s, hs, rfl⟩ := List.mem_map.mp hr
  have hs1 := List.mem_of_mem_take hs
  rw [List.mem_mergeSort] at hs1
  obtain ⟨c, hc, rfl⟩ := List.mem_map.mp hs1
  obtain ⟨i, hi, rfl⟩ := List.mem_map.mp hc
  rw [List.mem_range, CANDIDATE_COUNT] at hi
  refine ⟨i + 1, by omega, by simp only [CANDIDATE_COUNT]; omega, ?_, ?_, ?_⟩ <;>
    simp only [materializeRoute, resolveCandidate, hrouter]

lemma terrain_mem_generateOSRMRoutes (m : MathModel) (center : RoutePoint)
    (distanceKm : ℚ) (routeType : RouteType) (count : ℕ) (prefs : RoutePreferences)
    (endP : Option RoutePoint) (router : List RoutePoint → Option OSRMRoute)
    (greenFetch : ℚ → List RoutePoint) (quietFetch : List RoutePoint → ℚ)
    (mkId : ℕ → String) (r : GeneratedRoute)
    (hr : r ∈ generateOSRMRoutes m center distanceKm routeType count prefs endP
      router greenFetch quietFetch mkId) :
    r.terrain = terrainOf routeType := by
  simp only [generateOSRMRoutes] at hr
  obtain ⟨s, hs, rfl⟩ := List.mem_map.mp hr
  rfl

/-- C2 (amended): if the road router returns `null` for every candidate,
`generateOSRMRoutes` with `1 ≤ count ≤ 3` still returns exactly `count`
routes without raising; each returned route's geometry is the raw
synthesized waypoint skeleton of one of the three variants, its distance is
the cumulative haversine sum over consecutive skeleton points rounded to
2 decimals — a nonnegative value (zero is possible in degenerate calls, see
the counterexample) — and its estimated time is `round(distanceKm * 6)`. -/
theorem generateOSRMRoutes_fallback_complete (m : MathModel) (center : RoutePoint)
    (distanceKm : ℚ) (routeType : RouteType) (count : ℕ) (prefs : RoutePreferences)
    (endP : Option RoutePoint) (router : List RoutePoint → Option OSRMRoute)
    (greenFetch : ℚ → List RoutePoint) (quietFetch : List RoutePoint → ℚ)
    (mkId : ℕ → String) (hrouter : ∀ wps, router wps = none)
    (hc1 : 1 ≤ count) (hc3 : count ≤ CANDIDATE_COUNT)
    (hnn : ∀ p q : RoutePoint, 0 ≤ haversineDistance m p q) :
    (generateOSRMRoutes m center distanceKm routeType count prefs endP router
      greenFetch quietFetch mkId).length = count
    ∧ ∀ r ∈ generateOSRMRoutes m center distanceKm routeType count prefs endP
        router greenFetch quietFetch mkId,
        ∃ v, 1 ≤ v ∧ v ≤ CANDIDATE_COUNT ∧
          r.points = candidateWaypoints m center distanceKm routeType prefs endP
            (effectiveGreenSpaces m center distanceKm routeType prefs endP greenFetch) v
          ∧ r.distance = round2 (cumDist m r.points)
          ∧ r.estimatedTime = jsRound (cumDist m r.points * 6)
          ∧ 0 ≤ r.distance := by
  constructor
  · rw [generateOSRMRoutes_length]
    exact Nat.min_eq_left hc3
  · intro r hr
    obtain ⟨v, h1, h3, hp, hd, ht⟩ := mem_generateOSRMRoutes_fallback m center
      distanceKm routeType count prefs endP router greenFetch quietFetch mkId
      hrouter r hr
    exact ⟨v, h1, h3, hp, hd, ht,
      hd ▸ round2_nonneg _ (cumDist_nonneg m hnn _)⟩

/-- Witness for `generateOSRMRoutes_fallback_complete` at a concrete loop
request with an always-failing router. -/
theorem generateOSRMRoutes_fallback_complete_witness :
    (generateOSRMRoutes qmodel ⟨0, 0⟩ 5 .loop 1 ⟨false⟩ none (fun _ => none)
      (fun _ => []) (fun _ => 1/2) (fun _ => "r")).length = 1
    ∧ ∀ r ∈ generateOSRMRoutes qmodel ⟨0, 0⟩ 5 .loop 1 ⟨false⟩ none
        (fun _ => none) (fun _ => []) (fun _ => 1/2) (fun _ => "r"),
        ∃ v, 1 ≤ v ∧ v ≤ CANDIDATE_COUNT ∧
          r.points = candidateWaypoints qmodel ⟨0, 0⟩ 5 .loop ⟨false⟩ none
            (effectiveGreenSpaces qmodel ⟨0, 0⟩ 5 .loop ⟨false⟩ none (fun _ => [])) v
          ∧ r.distance = round2 (cumDist qmodel r.points)
          ∧ r.estimatedTime = jsRound (cumDist qmodel r.points * 6)
          ∧ 0 ≤ r.distance :=
  generateOSRMRoutes_fallback_complete qmodel ⟨0, 0⟩ 5 .loop 1 ⟨false⟩ none
    (fun _ => none) (fun _ => []) (fun _ => 1/2) (fun _ => "r")
    (fun _ => rfl) (by norm_num) (by norm_num [CANDIDATE_COUNT])
    (fun p q => le_of_eq (qmodel_haversine p q).symm)

/-- C2 counterexample: a point-to-point call whose end equals the start
(target 5 km > 0, count 1, router failing on every candidate) returns its
single route with distance exactly 0 — not a positive value.  The same
happens in the source: the skeleton degenerates to four copies of the
center, so the cumulative haversine sum is exactly 0. -/
theorem generateOSRMRoutes_fallback_distance_zero :
    (generateOSRMRoutes qmodel ⟨0, 0⟩ 5 .pointToPoint 1 ⟨false⟩ (some ⟨0, 0⟩)
      (fun _ => none) (fun _ => []) (fun _ => 1/2) (fun _ => "r")).map
      (fun r => r.distance) = [0] := by
  have hlen : (generateOSRMRoutes qmodel ⟨0, 0⟩ 5 .pointToPoint 1 ⟨false⟩
      (some ⟨0, 0⟩) (fun _ => none) (fun _ => []) (fun _ => 1/2)
      (fun _ => "r")).length = 1 := by
    rw [generateOSRMRoutes_length]; rfl
  have hskel : ∀ v : ℕ,
      generatePointToPointWaypoints qmodel ⟨0, 0⟩ ⟨0, 0⟩ ⟨false⟩ v [] =
        [⟨0, 0⟩, ⟨0, 0⟩, ⟨0, 0⟩, ⟨0, 0⟩] := by
    intro v
    simp [generatePointToPointWaypoints, selectWaypoint, List.range_succ]
  have hall : ∀ r ∈ generateOSRMRoutes qmodel ⟨0, 0⟩ 5 .pointToPoint 1 ⟨false⟩
      (some ⟨0, 0⟩) (fun _ => none) (fun _ => []) (fun _ => 1/2) (fun _ => "r"),
      r.distance = 0 := by
    intro r hr
    obtain ⟨v, _, _, hp, hd, _⟩ := mem_generateOSRMRoutes_fallback qmodel ⟨0, 0⟩
      5 .pointToPoint 1 ⟨false⟩ (some ⟨0, 0⟩) (fun _ => none) (fun _ => [])
      (fun _ => 1/2) (fun _ => "r") (fun _ => rfl) r hr
    have hcw : candidateWaypoints qmodel ⟨0, 0⟩ 5 .pointToPoint ⟨false⟩
        (some ⟨0, 0⟩) (effectiveGreenSpaces qmodel ⟨0, 0⟩ 5 .pointToPoint ⟨false⟩
          (some ⟨0, 0⟩) (fun _ => [])) v =
        generatePointToPointWaypoints qmodel ⟨0, 0⟩ ⟨0, 0⟩ ⟨false⟩ v [] := rfl
    rw [hd, hp, hcw, hskel v]
    have hzero : cumDist qmodel [(⟨0, 0⟩ : RoutePoint), ⟨0, 0⟩, ⟨0, 0⟩, ⟨0, 0⟩] = 0 := by
      simp [cumDist, cumDist.cumDistGo, qmodel_haversine]
    rw [hzero]
    norm_num [round2, jsRound]
  obtain ⟨a, ha⟩ := List.length_eq_one.mp hlen
  rw [ha, List.map_singleton, hall a (by rw [ha]; exact List.mem_singleton_self a)]

/-- C4 (amended): `generateOSRMRoutes` never raises for any `count`; it
returns exactly `min count 3` routes — exactly `count` when
`count ≤ CANDIDATE_COUNT = 3`, and all 3 synthesized candidates (fewer than
`count`, silently, with no exception) when `count > 3`. -/
theorem generateOSRMRoutes_count_clamp (m : MathModel) (center : RoutePoint)
    (distanceKm : ℚ) (routeType : RouteType) (count : ℕ) (prefs : RoutePreferences)
    (endP : Option RoutePoint) (router : List RoutePoint → Option OSRMRoute)
    (greenFetch : ℚ → List RoutePoint) (quietFetch : List RoutePoint → ℚ)
    (mkId : ℕ → String) :
    (generateOSRMRoutes m center distanceKm routeType count prefs endP router
      greenFetch quietFetch mkId).length = min count CANDIDATE_COUNT :=
  generateOSRMRoutes_length m center distanceKm routeType count prefs endP
    router greenFetch quietFetch mkId

/-- C4 counterexample: with `count = 4 > 3` the call returns normally with
3 routes (the value of `scored.slice(0, count)` on 3 candidates) instead of
raising synchronously as claimed. -/
theorem generateOSRMRoutes_count_four_no_raise :
    (generateOSRMRoutes qmodel ⟨0, 0⟩ 5 .loop 4 ⟨false⟩ none (fun _ => none)
      (fun _ => []) (fun _ => 1/2) (fun _ => "r")).length = 3
    ∧ (3 : ℕ) < 4 := by
  refine ⟨?_, by omega⟩
  rw [generateOSRMRoutes_length]
  rfl

/-- C10: a point-to-point request without an end point dispatches every
candidate skeleton to the loop generator, yet every returned route is still
labeled with terrain "Point to Point" — the label comes from the requested
style alone, not from the generator actually used. -/
theorem pointToPoint_without_end_dispatch (m : MathModel) (center : RoutePoint)
    (distanceKm : ℚ) (count : ℕ) (prefs : RoutePreferences) (gs : List RoutePoint)
    (v : ℕ) (router : List RoutePoint → Option OSRMRoute)
    (greenFetch : ℚ → List RoutePoint) (quietFetch : List RoutePoint → ℚ)
    (mkId : ℕ → String) :
    candidateWaypoints m center distanceKm .pointToPoint prefs none gs v
      = generateLoopWaypoints m center distanceKm prefs v gs
    ∧ (generateOSRMRoutes m center distanceKm .pointToPoint count prefs none
        router greenFetch quietFetch mkId).map (fun r => r.terrain)
      = List.replicate (min count CANDIDATE_COUNT) "Point to Point" := by
  refine ⟨rfl, ?_⟩
  rw [List.eq_replicate_iff]
  constructor
  · rw [List.length_map, generateOSRMRoutes_length]
  · intro b hb
    obtain ⟨r, hrm, rfl⟩ := List.mem_map.mp hb
    exact terrain_mem_generateOSRMRoutes m center distanceKm .pointToPoint count
      prefs none router greenFetch quietFetch mkId r hrm

end RunningRoutes
